import Mathlib

/-! The `Texture` binding of node-sfml (src/texture.cc).

A shallow embedding of the native methods of `node_sfml::texture::Texture`.

* The native object is a record of its two members, `_texture` (the SFML
  texture, i.e. the pixel buffer) and `_loading` (the busy flag).
* SFML and the V8 value conversions are collaborators outside the repository;
  they are taken as a parameter (`Host`), so every general theorem holds for
  every behaviour of the library.
* A native method maps the object and the argument list `info` to the object
  afterwards, the completion seen by the JavaScript caller and the effects it
  requested (queued workers, invoked callbacks).
* `Nan::ObjectWrap::Unwrap` of a value that is not a wrapped object of the
  expected class, and a read of the buffer of a `Nan::Utf8String` whose
  conversion threw, are undefined behaviour in C++; the methods that can reach
  one return an `Option`, `none` standing for that case.
* `FromJust()` on the `Nothing` of a conversion that threw is a fatal error:
  the process aborts. That is the completion `aborted`; the object recorded
  with it is the object at that moment.
* JavaScript numbers are restricted to integral values; unsigned 32-bit
  integers are naturals reduced modulo `2 ^ 32`.
-/

namespace node_sfml

/-- The integer rectangle `sf::IntRect`; its default constructor gives `(0, 0, 0, 0)`. -/
structure IntRect where
  left : Int
  top : Int
  width : Int
  height : Int
deriving DecidableEq, Repr

namespace texture

/-- The native state of `class Texture`: the wrapped `sf::Texture` and the busy flag. -/
structure Texture (Tex : Type) where
  _texture : Tex
  _loading : Bool
deriving DecidableEq, Repr

/-- The JavaScript values that reach the binding. A wrapped native object is
represented by the native state it wraps. -/
inductive JsValue (Tex Img : Type) where
  | undefined
  | null
  | boolean (b : Bool)
  | number (n : Int)
  | bigint (n : Int)
  | string (s : String)
  | symbol (id : Nat)
  | object (id : Nat)
  | function (id : Nat)
  | error (message : String)
  | intRect (rect : IntRect)
  | texture (wrapped : Texture Tex)
  | image (wrapped : Img)
  | vector2u (x y : Nat)
deriving DecidableEq, Repr

/-- The collaborators outside the repository: the operations of `sf::Texture`
used by the binding, and the V8 conversions of values that are not already of
the requested kind. -/
structure Host (Tex Img : Type) where
  /-- The default constructor `sf::Texture()`. -/
  Texture_default : Tex
  /-- The call `sf::Texture::create(width, height)`: its boolean result and the texture afterwards. -/
  create : Tex → Nat → Nat → Bool × Tex
  /-- The call `sf::Texture::loadFromFile(filename, area)`: its boolean result and the texture afterwards. -/
  loadFromFile : Tex → String → IntRect → Bool × Tex
  /-- The call `sf::Texture::getSize()`. -/
  getSize : Tex → Nat × Nat
  /-- The call `sf::Texture::setSmooth(smooth)`. -/
  setSmooth : Tex → Bool → Tex
  /-- The call `sf::Texture::update(const Texture&)`. -/
  update_texture : Tex → Tex → Tex
  /-- The call `sf::Texture::update(const Texture&, x, y)`. -/
  update_texture_at : Tex → Tex → Nat → Nat → Tex
  /-- The call `sf::Texture::update(const Image&)`. -/
  update_image : Tex → Img → Tex
  /-- The call `sf::Texture::update(const Image&, x, y)`. -/
  update_image_at : Tex → Img → Nat → Nat → Tex
  /-- The V8 conversion to an unsigned 32-bit integer of a string or an object;
  `none` when the conversion throws. -/
  toUint32_other : JsValue Tex Img → Option Nat
  /-- The V8 conversion to a string of a value that is neither a string nor a
  symbol; `none` when the conversion throws. -/
  toString_other : JsValue Tex Img → Option String

/-- The completion of a native method: the return value the JavaScript caller
sees (`undefined` when none was set), the exception thrown to it, or the
abort of the process by a fatal error. -/
inductive Completion (Tex Img : Type) where
  | returned (value : JsValue Tex Img)
  | thrown (exception : JsValue Tex Img)
  | aborted
deriving DecidableEq, Repr

/-- The request handed to `LoadFromFileWorker`: file name, load function,
its context (the area) and the callback. The target is the holder itself. -/
structure LoadFromFileWorker (Tex Img : Type) where
  filename : String
  func : Texture Tex → String → IntRect → Bool × Texture Tex
  context : IntRect
  callback : JsValue Tex Img

/-- The effects a native method or a worker can request from the event loop. -/
inductive Effect (Tex Img : Type) where
  | AsyncQueueWorker (worker : LoadFromFileWorker Tex Img)
  | invoke (callback : JsValue Tex Img) (loaded : Bool)

/-- The outcome of one native method call. -/
structure Call (Tex Img : Type) where
  texture : Texture Tex
  completion : Completion Tex Img
  effects : List (Effect Tex Img)

variable {Tex Img : Type}

/-- The argument `info[i]`: `undefined` past the end of the argument list. -/
def arg (info : List (JsValue Tex Img)) (i : Nat) : JsValue Tex Img :=
  info.getD i .undefined

/-- The conversion `Nan::To<sf::Uint32>(v)`: `none` is the `Nothing` of a
conversion that threw (a symbol, a big integer, an object whose conversion
throws), on which `FromJust()` aborts the process. -/
def To_Uint32 (E : Host Tex Img) : JsValue Tex Img → Option Nat
  | .number n => some (n % 2 ^ 32).toNat
  | .undefined => some 0
  | .null => some 0
  | .boolean b => some (if b then 1 else 0)
  | .symbol _ => none
  | .bigint _ => none
  | v => (E.toUint32_other v).map (fun n => n % 2 ^ 32)

/-- The conversion `Nan::To<bool>(v).FromJust()` (ToBoolean, which never throws). -/
def To_bool : JsValue Tex Img → Bool
  | .undefined => false
  | .null => false
  | .boolean b => b
  | .number n => n != 0
  | .bigint n => n != 0
  | .string s => s != ""
  | _ => true

/-- The buffer of a `Nan::Utf8String` built from `v`; `none` when the
conversion to a string throws (a symbol, an object whose conversion throws):
the buffer is then left unset. -/
def Utf8String (E : Host Tex Img) : JsValue Tex Img → Option String
  | .string s => some s
  | .symbol _ => none
  | v => E.toString_other v

/-- The `std::string` built from the `char*` of a buffer (`*utf8_filename`
passed where a `const std::string&` is expected): the characters before the
first NUL. -/
def std_string (buffer : String) : String :=
  String.mk (buffer.toList.takeWhile (fun c => c.toNat != 0))

/-- The test `v->IsUndefined()`. -/
def IsUndefined : JsValue Tex Img → Bool
  | .undefined => true
  | _ => false

/-- The rectangle of `Unwrap<rect::IntRect>(v.As<Object>())->rect()`;
`none` when `v` is not a wrapped `IntRect`. -/
def Unwrap_IntRect : JsValue Tex Img → Option IntRect
  | .intRect r => some r
  | _ => none

/-- The native object of `Unwrap<Texture>(v.As<Object>())`;
`none` when `v` is not a wrapped `Texture`. -/
def Unwrap_Texture : JsValue Tex Img → Option (Texture Tex)
  | .texture t => some t
  | _ => none

/-- The image of `Unwrap<image::Image>(v.As<Object>())->image()`;
`none` when `v` is not a wrapped `Image`. -/
def Unwrap_Image : JsValue Tex Img → Option Img
  | .image i => some i
  | _ => none

/-- The message of the error raised while a load is in progress. -/
def busyMessage : String := "Texture is loading."

/-- Modelled from the spec: the accessor `mutable_texture()` is declared in
texture.h, which is absent. Section 3 gives a Texture exactly one pixel buffer
handle, so the accessor yields the member `_texture`. -/
def mutable_texture (t : Texture Tex) : Tex := t._texture

/-- Modelled from the spec: a write through the reference returned by
`mutable_texture()` (texture.h is absent) is a write to the member `_texture`. -/
def mutable_texture_store (t : Texture Tex) (v : Tex) : Texture Tex :=
  { t with _texture := v }

/-- Modelled from the spec: `Vector2::NewRealInstance` is defined in vector2.h,
which is absent. Sections 4.5 and 6 say a size is delivered as an unsigned 2D
vector value and that the size query otherwise always succeeds. -/
def NewRealInstance (size : Nat × Nat) : Except (JsValue Tex Img) (JsValue Tex Img) :=
  .ok (.vector2u size.1 size.2)

/-- Modelled from the spec: the constructor `Texture::Texture() : _texture()`
leaves the initial value of `_loading` to texture.h, which is absent; by
section 3 the busy flag is true only while a load is in flight, so a new
texture is not busy. -/
def Texture.new (E : Host Tex Img) : Texture Tex :=
  { _texture := E.Texture_default, _loading := false }

/-- The method `Texture::Create`. -/
def Texture.Create (E : Host Tex Img) (texture : Texture Tex)
    (info : List (JsValue Tex Img)) : Call Tex Img :=
  match To_Uint32 E (arg info 0) with
  | none => { texture := texture, completion := .aborted, effects := [] }
  | some w =>
    match To_Uint32 E (arg info 1) with
    | none => { texture := texture, completion := .aborted, effects := [] }
    | some h =>
      { texture := { texture with _texture := (E.create texture._texture w h).2 }
        completion := .returned .undefined
        effects := [] }

/-- The function `LoadFromFileFunction`, run by the worker on the target. -/
def LoadFromFileFunction (E : Host Tex Img) (target : Texture Tex) (filename : String)
    (context : IntRect) : Bool × Texture Tex :=
  let rect := context
  let texture := target
  let r := E.loadFromFile (mutable_texture texture) filename rect
  (r.1, mutable_texture_store texture r.2)

/-- The method `Texture::LoadFromFile`. -/
def Texture.LoadFromFile (E : Host Tex Img) (texture : Texture Tex)
    (info : List (JsValue Tex Img)) : Option (Call Tex Img) :=
  if texture._loading then
    some { texture := texture
           completion := .returned (.error busyMessage)
           effects := [] }
  else
    let texture := { texture with _loading := true }
    match Utf8String E (arg info 0) with
    | none => none
    | some utf8_filename =>
      let callback := arg info 2
      let area : IntRect := ⟨0, 0, 0, 0⟩
      let area : Option IntRect :=
        if !IsUndefined (arg info 1) then Unwrap_IntRect (arg info 1) else some area
      match area with
      | none => none
      | some area =>
        let worker : LoadFromFileWorker Tex Img :=
          { filename := std_string utf8_filename
            func := LoadFromFileFunction E
            context := area
            callback := callback }
        some { texture := texture
               completion := .returned .undefined
               effects := [.AsyncQueueWorker worker] }

/-- The method `Texture::LoadFromFileSync`. -/
def Texture.LoadFromFileSync (E : Host Tex Img) (texture : Texture Tex)
    (info : List (JsValue Tex Img)) : Option (Call Tex Img) :=
  if texture._loading then
    some { texture := texture
           completion := .returned (.error busyMessage)
           effects := [] }
  else
    match Utf8String E (arg info 0) with
    | none => none
    | some utf8_filename =>
      let area : IntRect := ⟨0, 0, 0, 0⟩
      let area : Option IntRect :=
        if !IsUndefined (arg info 1) then Unwrap_IntRect (arg info 1) else some area
      match area with
      | none => none
      | some area =>
        let r := E.loadFromFile texture._texture (std_string utf8_filename) area
        some { texture := { texture with _texture := r.2 }
               completion := .returned (.boolean r.1)
               effects := [] }

/-- The method `Texture::GetSize`. -/
def Texture.GetSize (E : Host Tex Img) (texture : Texture Tex)
    (_info : List (JsValue Tex Img)) : Call Tex Img :=
  if texture._loading then
    { texture := texture
      completion := .thrown (.error busyMessage)
      effects := [] }
  else
    let size := E.getSize texture._texture
    match (NewRealInstance size : Except (JsValue Tex Img) (JsValue Tex Img)) with
    | .error pending =>
      { texture := texture, completion := .thrown pending, effects := [] }
    | .ok size_obj =>
      { texture := texture, completion := .returned size_obj, effects := [] }

/-- The method `Texture::SetSmooth`. -/
def Texture.SetSmooth (E : Host Tex Img) (texture : Texture Tex)
    (info : List (JsValue Tex Img)) : Call Tex Img :=
  let smooth := To_bool (arg info 0)
  { texture := { texture with _texture := E.setSmooth texture._texture smooth }
    completion := .returned .undefined
    effects := [] }

/-- The method `Texture::UpdateByTexture`. -/
def Texture.UpdateByTexture (E : Host Tex Img) (texture : Texture Tex)
    (info : List (JsValue Tex Img)) : Option (Call Tex Img) :=
  if texture._loading then
    some { texture := texture
           completion := .thrown (.error busyMessage)
           effects := [] }
  else
    match Unwrap_Texture (arg info 0) with
    | none => none
    | some another =>
      if info.length ≤ 1 then
        some { texture := { texture with
                 _texture := E.update_texture texture._texture another._texture }
               completion := .returned .undefined
               effects := [] }
      else
        match To_Uint32 E (arg info 1) with
        | none => some { texture := texture, completion := .aborted, effects := [] }
        | some x =>
          match To_Uint32 E (arg info 2) with
          | none => some { texture := texture, completion := .aborted, effects := [] }
          | some y =>
            some { texture := { texture with
                     _texture := E.update_texture_at texture._texture another._texture x y }
                   completion := .returned .undefined
                   effects := [] }

/-- The method `Texture::UpdateByImage`. -/
def Texture.UpdateByImage (E : Host Tex Img) (texture : Texture Tex)
    (info : List (JsValue Tex Img)) : Option (Call Tex Img) :=
  if texture._loading then
    some { texture := texture
           completion := .thrown (.error busyMessage)
           effects := [] }
  else
    match Unwrap_Image (arg info 0) with
    | none => none
    | some img =>
      if info.length ≤ 1 then
        some { texture := { texture with
                 _texture := E.update_image texture._texture img }
               completion := .returned .undefined
               effects := [] }
      else
        match To_Uint32 E (arg info 1) with
        | none => some { texture := texture, completion := .aborted, effects := [] }
        | some x =>
          match To_Uint32 E (arg info 2) with
          | none => some { texture := texture, completion := .aborted, effects := [] }
          | some y =>
            some { texture := { texture with
                     _texture := E.update_image_at texture._texture img x y }
                   completion := .returned .undefined
                   effects := [] }

/-! ## The worker and the event loop -/

/-- Modelled from the spec: workers/load_from_file_worker.h is absent. The
decode step of section 4.1 runs the load function handed to the worker on its
target, with the file name and the area, and yields the boolean outcome. -/
def LoadFromFileWorker.Execute (w : LoadFromFileWorker Tex Img) (target : Texture Tex) :
    Bool × Texture Tex :=
  w.func target w.filename w.context

/-- Modelled from the spec: workers/load_from_file_worker.h is absent. The
completion step of section 4.1 clears the busy flag of the target, then invokes
the callback exactly once with the outcome. -/
def LoadFromFileWorker.HandleOKCallback (w : LoadFromFileWorker Tex Img) (loaded : Bool)
    (target : Texture Tex) : Texture Tex × List (Effect Tex Img) :=
  ({ target with _loading := false }, [.invoke w.callback loaded])

/-- A load in flight: its worker and, once the decode step has run, its outcome. -/
structure InFlight (Tex Img : Type) where
  worker : LoadFromFileWorker Tex Img
  loaded : Option Bool

/-- One texture together with the loads in flight for it. -/
structure System (Tex Img : Type) where
  texture : Texture Tex
  inflight : List (InFlight Tex Img)

/-- The prototype methods registered by `Texture::Init`. -/
inductive Method where
  | create
  | loadFromFile
  | loadFromFileSync
  | getSize
  | updateByImage
  | updateByTexture
  | setSmooth
deriving DecidableEq, Repr

/-- The native method bound to each prototype method by `Texture::Init`. -/
def Texture.dispatch (E : Host Tex Img) (m : Method) (texture : Texture Tex)
    (info : List (JsValue Tex Img)) : Option (Call Tex Img) :=
  match m with
  | .create => some (Texture.Create E texture info)
  | .loadFromFile => Texture.LoadFromFile E texture info
  | .loadFromFileSync => Texture.LoadFromFileSync E texture info
  | .getSize => some (Texture.GetSize E texture info)
  | .updateByImage => Texture.UpdateByImage E texture info
  | .updateByTexture => Texture.UpdateByTexture E texture info
  | .setSmooth => some (Texture.SetSmooth E texture info)

/-- The workers queued by a list of effects, none of them decoded yet. -/
def queued : List (Effect Tex Img) → List (InFlight Tex Img)
  | [] => []
  | .AsyncQueueWorker w :: rest => ⟨w, none⟩ :: queued rest
  | .invoke _ _ :: rest => queued rest

/-- What can happen to a texture: a method call from JavaScript, the decode
step of the in-flight load number `i`, or the completion step of that load. -/
inductive Event (Tex Img : Type) where
  | call (m : Method) (info : List (JsValue Tex Img))
  | execute (i : Nat)
  | complete (i : Nat)

/-- One event; `none` when the event cannot happen in this state. A call that
aborts the process is kept as a step, so the runs cover every real history. -/
def System.step (E : Host Tex Img) (s : System Tex Img) : Event Tex Img → Option (System Tex Img)
  | .call m info =>
    match Texture.dispatch E m s.texture info with
    | none => none
    | some c => some { texture := c.texture, inflight := s.inflight ++ queued c.effects }
  | .execute i =>
    match s.inflight.get? i with
    | some ⟨w, none⟩ =>
      let r := w.Execute s.texture
      some { texture := r.2, inflight := s.inflight.set i ⟨w, some r.1⟩ }
    | _ => none
  | .complete i =>
    match s.inflight.get? i with
    | some ⟨w, some loaded⟩ =>
      some { texture := (w.HandleOKCallback loaded s.texture).1
             inflight := s.inflight.eraseIdx i }
    | _ => none

/-- A sequence of events, from left to right. -/
def System.run (E : Host Tex Img) (s : System Tex Img) : List (Event Tex Img) → Option (System Tex Img)
  | [] => some s
  | e :: rest =>
    match s.step E e with
    | none => none
    | some s1 => System.run E s1 rest

/-- A freshly constructed texture: no load was ever requested for it. -/
def System.fresh (E : Host Tex Img) : System Tex Img :=
  { texture := Texture.new E, inflight := [] }

/-! ## A sample host, to evaluate the methods on concrete inputs -/

/-- A sample texture: its size, its smoothing flag and a name for its pixels. -/
structure SampleTexture where
  width : Nat
  height : Nat
  smooth : Bool
  pixels : String
deriving DecidableEq, Repr

/-- A sample image: its size and a name for its pixels. -/
structure SampleImage where
  width : Nat
  height : Nat
  pixels : String
deriving DecidableEq, Repr

/-- A sample host. Creation fails on an empty size; the only file that decodes
is `logo.png`, a 64 by 32 image; an update that does not fit is dropped. A
string of decimal digits converts to its number and every other string, like
every object, to 0; objects print as `[object Object]`. -/
def sampleHost : Host SampleTexture SampleImage where
  Texture_default := ⟨0, 0, false, ""⟩
  create t w h :=
    if w = 0 ∨ h = 0 then (false, t) else (true, { t with width := w, height := h, pixels := "blank" })
  loadFromFile t filename area :=
    if filename = "logo.png" then
      if area.width = 0 ∨ area.height = 0 then
        (true, { t with width := 64, height := 32, pixels := "logo.png" })
      else
        (true, { t with width := area.width.toNat, height := area.height.toNat, pixels := "logo.png" })
    else (false, t)
  getSize t := (t.width, t.height)
  setSmooth t smooth := { t with smooth := smooth }
  update_texture t other :=
    if other.width ≤ t.width ∧ other.height ≤ t.height then { t with pixels := other.pixels } else t
  update_texture_at t other x y :=
    if x + other.width ≤ t.width ∧ y + other.height ≤ t.height then
      { t with pixels := other.pixels } else t
  update_image t img :=
    if img.width ≤ t.width ∧ img.height ≤ t.height then { t with pixels := img.pixels } else t
  update_image_at t img x y :=
    if x + img.width ≤ t.width ∧ y + img.height ≤ t.height then
      { t with pixels := img.pixels } else t
  toUint32_other v :=
    match v with
    | .string s => some (s.toNat?.getD 0)
    | _ => some 0
  toString_other v :=
    match v with
    | .undefined => some "undefined"
    | .null => some "null"
    | .boolean b => some (if b then "true" else "false")
    | .number n => some (toString n)
    | .bigint n => some (toString n)
    | _ => some "[object Object]"

/-- A sample JavaScript value type over the sample host. -/
abbrev SampleValue := JsValue SampleTexture SampleImage

/-- A sample texture object: a 10 by 10 buffer, not busy. -/
def sampleIdle : Texture SampleTexture :=
  { _texture := ⟨10, 10, false, "blank"⟩, _loading := false }

/-- A sample texture object: a 10 by 10 buffer, with a load in flight. -/
def sampleBusy : Texture SampleTexture :=
  { _texture := ⟨10, 10, false, "blank"⟩, _loading := true }

/-- A sample argument list of a load: a path, no area, a callback. -/
def sampleLoadArgs : List SampleValue :=
  [.string "logo.png", .undefined, .function 1]

/-- A sample argument list of a load: a path, an area, a callback. -/
def sampleLoadAreaArgs : List SampleValue :=
  [.string "logo.png", .intRect ⟨1, 2, 3, 4⟩, .function 1]

/-- C1: on a busy texture, for every argument list, `loadFromFile` returns the
error `Texture is loading.` to its caller at once, requests no effect (no
worker is queued, no callback is invoked) and leaves the busy flag and the
pixel buffer as they were. -/
theorem LoadFromFile_busy (E : Host Tex Img) (texture : Texture Tex)
    (info : List (JsValue Tex Img)) (h : texture._loading = true) :
    Texture.LoadFromFile E texture info =
      some { texture := texture
             completion := .returned (.error "Texture is loading.")
             effects := [] } := by
  simp [Texture.LoadFromFile, h, busyMessage]

/-- A busy sample texture refuses a load. -/
theorem LoadFromFile_busy_witness :
    sampleBusy._loading = true ∧
    Texture.LoadFromFile sampleHost sampleBusy sampleLoadArgs =
      some { texture := sampleBusy
             completion := .returned (.error "Texture is loading.")
             effects := [] } :=
  ⟨rfl, LoadFromFile_busy sampleHost sampleBusy sampleLoadArgs rfl⟩

/-- The load function writes the buffer of its target and nothing else. -/
theorem LoadFromFileFunction_loading (E : Host Tex Img) (target : Texture Tex)
    (filename : String) (context : IntRect) :
    (LoadFromFileFunction E target filename context).2._loading = target._loading := rfl

/-- The method `create` keeps the busy flag and requests no effect. -/
theorem Create_frame (E : Host Tex Img) (texture : Texture Tex) (info : List (JsValue Tex Img)) :
    (Texture.Create E texture info).texture._loading = texture._loading ∧
    (Texture.Create E texture info).effects = [] := by
  unfold Texture.Create
  split
  · exact ⟨rfl, rfl⟩
  · split <;> exact ⟨rfl, rfl⟩

/-- The method `setSmooth` keeps the busy flag and requests no effect. -/
theorem SetSmooth_frame (E : Host Tex Img) (texture : Texture Tex)
    (info : List (JsValue Tex Img)) :
    (Texture.SetSmooth E texture info).texture._loading = texture._loading ∧
    (Texture.SetSmooth E texture info).effects = [] := ⟨rfl, rfl⟩

/-- The method `getSize` keeps the whole object and requests no effect. -/
theorem GetSize_frame (E : Host Tex Img) (texture : Texture Tex)
    (info : List (JsValue Tex Img)) :
    (Texture.GetSize E texture info).texture = texture ∧
    (Texture.GetSize E texture info).effects = [] := by
  unfold Texture.GetSize NewRealInstance
  cases texture._loading <;> simp

/-- The method `loadFromFileSync` keeps the busy flag and requests no effect. -/
theorem LoadFromFileSync_frame (E : Host Tex Img) (texture : Texture Tex)
    (info : List (JsValue Tex Img)) (c : Call Tex Img)
    (h : Texture.LoadFromFileSync E texture info = some c) :
    c.texture._loading = texture._loading ∧ c.effects = [] := by
  obtain ⟨tex, loading⟩ := texture
  cases loading
  · simp only [Texture.LoadFromFileSync, Bool.false_eq_true, if_false] at h
    split at h
    · exact absurd h (by simp)
    · split at h
      · exact absurd h (by simp)
      · cases h
        exact ⟨rfl, rfl⟩
  · simp only [Texture.LoadFromFileSync, if_true, Option.some.injEq] at h
    subst h
    exact ⟨rfl, rfl⟩

/-- On a texture that is not busy, `updateByTexture` keeps the busy flag,
requests no effect and either returns `undefined` or aborts. -/
theorem UpdateByTexture_idle (E : Host Tex Img) (tex : Tex)
    (info : List (JsValue Tex Img)) (c : Call Tex Img)
    (h : Texture.UpdateByTexture E ⟨tex, false⟩ info = some c) :
    c.texture._loading = false ∧ c.effects = [] ∧
    (c.completion = .returned .undefined ∨ c.completion = .aborted) := by
  simp only [Texture.UpdateByTexture, Bool.false_eq_true, if_false] at h
  split at h
  · exact absurd h (by simp)
  · split at h
    · cases h
      exact ⟨rfl, rfl, Or.inl rfl⟩
    · split at h
      · cases h
        exact ⟨rfl, rfl, Or.inr rfl⟩
      · split at h
        · cases h
          exact ⟨rfl, rfl, Or.inr rfl⟩
        · cases h
          exact ⟨rfl, rfl, Or.inl rfl⟩

/-- On a texture that is not busy, `updateByImage` keeps the busy flag,
requests no effect and either returns `undefined` or aborts. -/
theorem UpdateByImage_idle (E : Host Tex Img) (tex : Tex)
    (info : List (JsValue Tex Img)) (c : Call Tex Img)
    (h : Texture.UpdateByImage E ⟨tex, false⟩ info = some c) :
    c.texture._loading = false ∧ c.effects = [] ∧
    (c.completion = .returned .undefined ∨ c.completion = .aborted) := by
  simp only [Texture.UpdateByImage, Bool.false_eq_true, if_false] at h
  split at h
  · exact absurd h (by simp)
  · split at h
    · cases h
      exact ⟨rfl, rfl, Or.inl rfl⟩
    · split at h
      · cases h
        exact ⟨rfl, rfl, Or.inr rfl⟩
      · split at h
        · cases h
          exact ⟨rfl, rfl, Or.inr rfl⟩
        · cases h
          exact ⟨rfl, rfl, Or.inl rfl⟩

/-- The method `updateByTexture` keeps the busy flag and requests no effect. -/
theorem UpdateByTexture_frame (E : Host Tex Img) (texture : Texture Tex)
    (info : List (JsValue Tex Img)) (c : Call Tex Img)
    (h : Texture.UpdateByTexture E texture info = some c) :
    c.texture._loading = texture._loading ∧ c.effects = [] := by
  obtain ⟨tex, loading⟩ := texture
  cases loading
  · exact ⟨(UpdateByTexture_idle E tex info c h).1, (UpdateByTexture_idle E tex info c h).2.1⟩
  · simp only [Texture.UpdateByTexture, if_true, Option.some.injEq] at h
    subst h
    exact ⟨rfl, rfl⟩

/-- The method `updateByImage` keeps the busy flag and requests no effect. -/
theorem UpdateByImage_frame (E : Host Tex Img) (texture : Texture Tex)
    (info : List (JsValue Tex Img)) (c : Call Tex Img)
    (h : Texture.UpdateByImage E texture info = some c) :
    c.texture._loading = texture._loading ∧ c.effects = [] := by
  obtain ⟨tex, loading⟩ := texture
  cases loading
  · exact ⟨(UpdateByImage_idle E tex info c h).1, (UpdateByImage_idle E tex info c h).2.1⟩
  · simp only [Texture.UpdateByImage, if_true, Option.some.injEq] at h
    subst h
    exact ⟨rfl, rfl⟩

/-- The two outcomes of `loadFromFile`: refused on a busy texture, with no
effect; accepted on an idle one, which becomes busy and gets one worker whose
load function is `LoadFromFileFunction`. -/
theorem LoadFromFile_cases (E : Host Tex Img) (texture : Texture Tex)
    (info : List (JsValue Tex Img)) (c : Call Tex Img)
    (h : Texture.LoadFromFile E texture info = some c) :
    (texture._loading = true ∧ c.texture = texture ∧ c.effects = []) ∨
    (texture._loading = false ∧ c.texture._loading = true ∧
      ∃ w : LoadFromFileWorker Tex Img,
        c.effects = [.AsyncQueueWorker w] ∧ w.func = LoadFromFileFunction E) := by
  obtain ⟨tex, loading⟩ := texture
  cases loading
  · simp only [Texture.LoadFromFile, Bool.false_eq_true, if_false] at h
    split at h
    · exact absurd h (by simp)
    · split at h
      · exact absurd h (by simp)
      · cases h
        exact Or.inr ⟨rfl, rfl, _, rfl, rfl⟩
  · simp only [Texture.LoadFromFile, if_true, Option.some.injEq] at h
    subst h
    exact Or.inl ⟨rfl, rfl, rfl⟩

/-! ## At most one load in flight -/

/-- The invariant of the event loop: at most one load is in flight, a load is
in flight only on a busy texture, and every worker in flight runs
`LoadFromFileFunction`. -/
def System.Inv (E : Host Tex Img) (s : System Tex Img) : Prop :=
  s.inflight.length ≤ 1 ∧ (s.inflight ≠ [] → s.texture._loading = true) ∧
  ∀ f ∈ s.inflight, f.worker.func = LoadFromFileFunction E

/-- A fresh texture satisfies the invariant. -/
theorem System.Inv_fresh (E : Host Tex Img) : (System.fresh E).Inv E := by
  refine ⟨by simp [System.fresh], fun h => absurd rfl h, ?_⟩
  intro f hf
  simp [System.fresh] at hf

/-- A method call keeps the busy flag and queues nothing, unless it is an
accepted `loadFromFile`. -/
theorem dispatch_cases (E : Host Tex Img) (m : Method) (texture : Texture Tex)
    (info : List (JsValue Tex Img)) (c : Call Tex Img)
    (h : Texture.dispatch E m texture info = some c) :
    (c.texture._loading = texture._loading ∧ c.effects = []) ∨
    (texture._loading = false ∧ c.texture._loading = true ∧
      ∃ w : LoadFromFileWorker Tex Img,
        c.effects = [.AsyncQueueWorker w] ∧ w.func = LoadFromFileFunction E) := by
  cases m <;> simp only [Texture.dispatch] at h
  · cases h
    exact Or.inl (Create_frame E texture info)
  · rcases LoadFromFile_cases E texture info c h with ⟨_, ht, he⟩ | hr
    · exact Or.inl ⟨by rw [ht], he⟩
    · exact Or.inr hr
  · exact Or.inl (LoadFromFileSync_frame E texture info c h)
  · cases h
    exact Or.inl ⟨by rw [(GetSize_frame E texture info).1], (GetSize_frame E texture info).2⟩
  · exact Or.inl (UpdateByImage_frame E texture info c h)
  · exact Or.inl (UpdateByTexture_frame E texture info c h)
  · cases h
    exact Or.inl (SetSmooth_frame E texture info)

/-- Every event preserves the invariant. -/
theorem System.Inv_step (E : Host Tex Img) (s s1 : System Tex Img) (e : Event Tex Img)
    (hinv : s.Inv E) (h : s.step E e = some s1) : s1.Inv E := by
  obtain ⟨texture, inflight⟩ := s
  obtain ⟨hlen, hbusy, hfunc⟩ := hinv
  simp only at hlen hbusy hfunc
  cases e with
  | call m info =>
    simp only [System.step] at h
    split at h
    · exact absurd h (by simp)
    · rename_i c hc
      cases h
      rcases dispatch_cases E m texture info c hc with ⟨hl, he⟩ | ⟨hl, hl1, w, he, hw⟩
      · refine ⟨?_, ?_, ?_⟩
        · simpa [he, queued] using hlen
        · intro hne
          simp only [he, queued, List.append_nil] at hne
          simpa [hl] using hbusy hne
        · intro f hf
          simp only [he, queued, List.append_nil] at hf
          exact hfunc f hf
      · have hempty : inflight = [] := by
          by_contra hne
          have := hbusy hne
          rw [hl] at this
          exact absurd this (by simp)
        subst hempty
        refine ⟨by simp [he, queued], fun _ => hl1, ?_⟩
        intro f hf
        simp only [he, queued, List.nil_append, List.mem_singleton] at hf
        subst hf
        exact hw
  | execute i =>
    match inflight, hlen, hbusy, hfunc, h with
    | [], _, _, _, h => simp [System.step] at h
    | [f], _, hbusy, hfunc, h =>
      cases i with
      | zero =>
        obtain ⟨w, loaded⟩ := f
        cases loaded with
        | none =>
          simp only [System.step, List.get?, List.set, Option.some.injEq] at h
          subst h
          have hw : w.func = LoadFromFileFunction E := hfunc ⟨w, none⟩ (by simp)
          refine ⟨by simp, fun _ => ?_, ?_⟩
          · have hb : texture._loading = true := hbusy (by simp)
            simp only [LoadFromFileWorker.Execute, hw]
            exact hb
          · intro f hf
            simp only [List.mem_singleton] at hf
            subst hf
            exact hw
        | some b => simp [System.step] at h
      | succ n => simp [System.step] at h
    | _ :: _ :: _, hlen, _, _, _ => simp at hlen
  | complete i =>
    match inflight, hlen, hbusy, hfunc, h with
    | [], _, _, _, h => simp [System.step] at h
    | [f], _, _, _, h =>
      cases i with
      | zero =>
        obtain ⟨w, loaded⟩ := f
        cases loaded with
        | none => simp [System.step] at h
        | some b =>
          simp only [System.step, List.get?, List.eraseIdx, Option.some.injEq] at h
          subst h
          refine ⟨by simp, fun hne => absurd rfl hne, ?_⟩
          intro f hf
          simp at hf
      | succ n => simp [System.step] at h
    | _ :: _ :: _, hlen, _, _, _ => simp at hlen

/-- Every sequence of events preserves the invariant. -/
theorem System.Inv_run (E : Host Tex Img) (events : List (Event Tex Img)) :
    ∀ s s1 : System Tex Img, s.Inv E → s.run E events = some s1 → s1.Inv E := by
  induction events with
  | nil =>
    intro s s1 hinv h
    simp only [System.run, Option.some.injEq] at h
    subst h
    exact hinv
  | cons e rest ih =>
    intro s s1 hinv h
    simp only [System.run] at h
    split at h
    · exact absurd h (by simp)
    · rename_i s2 hs2
      exact ih s2 s1 (System.Inv_step E s s2 e hinv hs2) h

/-- A sample history: a load is accepted, a size query and a second load are
refused and a buffer is created while it is in flight; the load is decoded and
completed; then a load of an area is accepted. -/
def sampleEvents : List (Event SampleTexture SampleImage) :=
  [.call .loadFromFile sampleLoadArgs,
   .call .getSize [],
   .call .loadFromFile sampleLoadAreaArgs,
   .call .create [.number 4, .number 4],
   .execute 0,
   .complete 0,
   .call .loadFromFile sampleLoadAreaArgs]

/-- The state the sample history leads to. -/
def sampleState : System SampleTexture SampleImage :=
  { texture := { _texture := ⟨64, 32, false, "logo.png"⟩, _loading := true }
    inflight := [⟨{ filename := "logo.png"
                    func := LoadFromFileFunction sampleHost
                    context := ⟨1, 2, 3, 4⟩
                    callback := .function 1 }, none⟩] }

/-- C3: in every state reached from a freshly constructed texture by method
calls (create, loadFromFile, loadFromFileSync, getSize, setSmooth,
updateByImage, updateByTexture), decode steps and completion steps, at most
one load is in flight, and a load is in flight only while the busy flag is
true. -/
theorem at_most_one_load_in_flight (E : Host Tex Img) (events : List (Event Tex Img))
    (s : System Tex Img) (h : (System.fresh E).run E events = some s) :
    s.inflight.length ≤ 1 ∧ (s.inflight ≠ [] → s.texture._loading = true) :=
  have hinv := System.Inv_run E events (System.fresh E) s (System.Inv_fresh E) h
  ⟨hinv.1, hinv.2.1⟩

/-- The sample history is a run of the sample host, and its state has one load in flight. -/
theorem at_most_one_load_in_flight_witness :
    (System.fresh sampleHost).run sampleHost sampleEvents = some sampleState ∧
    sampleState.inflight.length ≤ 1 ∧
    (sampleState.inflight ≠ [] → sampleState.texture._loading = true) :=
  ⟨rfl, at_most_one_load_in_flight sampleHost sampleEvents sampleState rfl⟩

/-! ## Frame and guard of the synchronous methods -/

/-- A sample image that fits the sample textures. -/
def sampleSmallImage : SampleImage := ⟨2, 2, "dot"⟩

/-- C4: for every texture and argument list, each of `create`,
`loadFromFileSync`, `getSize`, `setSmooth`, `updateByImage` and
`updateByTexture` leaves the busy flag as it was before the call, whatever
the completion of the call; and `setSmooth` completes normally whatever the
flag is. -/
theorem busy_flag_unchanged (E : Host Tex Img) (texture : Texture Tex)
    (info : List (JsValue Tex Img)) :
    (Texture.Create E texture info).texture._loading = texture._loading ∧
    (∀ c, Texture.LoadFromFileSync E texture info = some c →
      c.texture._loading = texture._loading) ∧
    (Texture.GetSize E texture info).texture._loading = texture._loading ∧
    (Texture.SetSmooth E texture info).texture._loading = texture._loading ∧
    (∀ c, Texture.UpdateByImage E texture info = some c →
      c.texture._loading = texture._loading) ∧
    (∀ c, Texture.UpdateByTexture E texture info = some c →
      c.texture._loading = texture._loading) ∧
    (Texture.SetSmooth E texture info).completion = .returned .undefined := by
  refine ⟨(Create_frame E texture info).1, ?_, ?_, rfl, ?_, ?_, rfl⟩
  · exact fun c h => (LoadFromFileSync_frame E texture info c h).1
  · rw [(GetSize_frame E texture info).1]
  · exact fun c h => (UpdateByImage_frame E texture info c h).1
  · exact fun c h => (UpdateByTexture_frame E texture info c h).1

/-- On the sample host, a synchronous load and two updates go through on an
idle texture, an update is refused on a busy one, and the flag stays put. -/
theorem busy_flag_unchanged_witness :
    (∃ c, Texture.LoadFromFileSync sampleHost sampleIdle sampleLoadArgs = some c ∧
      c.completion = .returned (.boolean true) ∧ c.texture._loading = false) ∧
    (∃ c, Texture.UpdateByImage sampleHost sampleIdle [.image sampleSmallImage] = some c ∧
      c.completion = .returned .undefined ∧ c.texture._loading = false) ∧
    (∃ c, Texture.UpdateByTexture sampleHost sampleBusy [.texture sampleIdle] = some c ∧
      c.completion = .thrown (.error "Texture is loading.") ∧ c.texture._loading = true) :=
  ⟨⟨_, rfl, rfl,
      (busy_flag_unchanged sampleHost sampleIdle sampleLoadArgs).2.1 _ rfl⟩,
    ⟨_, rfl, rfl,
      (busy_flag_unchanged sampleHost sampleIdle [.image sampleSmallImage]).2.2.2.2.1 _ rfl⟩,
    ⟨_, rfl, rfl,
      (busy_flag_unchanged sampleHost sampleBusy [.texture sampleIdle]).2.2.2.2.2.1 _ rfl⟩⟩

/-- C5: each of `getSize`, `updateByTexture` and `updateByImage` throws the
error `Texture is loading.` exactly when the busy flag is true; when it does,
the whole object (pixel buffer and busy flag) is unchanged and no effect is
requested; and when the flag is false `getSize` returns the width and height
the underlying texture reports. -/
theorem busy_error_iff_loading (E : Host Tex Img) (texture : Texture Tex)
    (info : List (JsValue Tex Img)) :
    ((Texture.GetSize E texture info).completion = .thrown (.error "Texture is loading.") ↔
      texture._loading = true) ∧
    ((∃ c, Texture.UpdateByTexture E texture info = some c ∧
        c.completion = .thrown (.error "Texture is loading.")) ↔ texture._loading = true) ∧
    ((∃ c, Texture.UpdateByImage E texture info = some c ∧
        c.completion = .thrown (.error "Texture is loading.")) ↔ texture._loading = true) ∧
    (texture._loading = true →
      Texture.GetSize E texture info =
        { texture := texture, completion := .thrown (.error "Texture is loading."),
          effects := [] } ∧
      Texture.UpdateByTexture E texture info =
        some { texture := texture, completion := .thrown (.error "Texture is loading."),
               effects := [] } ∧
      Texture.UpdateByImage E texture info =
        some { texture := texture, completion := .thrown (.error "Texture is loading."),
               effects := [] }) ∧
    (texture._loading = false →
      Texture.GetSize E texture info =
        { texture := texture
          completion := .returned (.vector2u (E.getSize texture._texture).1
            (E.getSize texture._texture).2)
          effects := [] }) := by
  obtain ⟨tex, loading⟩ := texture
  cases loading
  · refine ⟨?_, ?_, ?_, ?_, ?_⟩
    · simp [Texture.GetSize, NewRealInstance]
    · simp only [Bool.false_eq_true, iff_false, not_exists, not_and]
      intro c h hc
      rcases (UpdateByTexture_idle E tex info c h).2.2 with hr | ha
      · rw [hr] at hc
        cases hc
      · rw [ha] at hc
        cases hc
    · simp only [Bool.false_eq_true, iff_false, not_exists, not_and]
      intro c h hc
      rcases (UpdateByImage_idle E tex info c h).2.2 with hr | ha
      · rw [hr] at hc
        cases hc
      · rw [ha] at hc
        cases hc
    · intro h
      exact absurd h (by simp)
    · intro _
      simp [Texture.GetSize, NewRealInstance]
  · refine ⟨?_, ?_, ?_, ?_, ?_⟩
    · simp [Texture.GetSize, busyMessage]
    · simp [Texture.UpdateByTexture, busyMessage]
    · simp [Texture.UpdateByImage, busyMessage]
    · intro _
      simp [Texture.GetSize, Texture.UpdateByTexture, Texture.UpdateByImage, busyMessage]
    · intro h
      exact absurd h (by simp)

/-- On the sample host, the three guarded methods throw on the busy texture,
and the size of the idle 10 by 10 texture is returned. -/
theorem busy_error_iff_loading_witness :
    Texture.UpdateByImage sampleHost sampleBusy [.image sampleSmallImage] =
      some { texture := sampleBusy, completion := .thrown (.error "Texture is loading."),
             effects := [] } ∧
    Texture.GetSize sampleHost sampleIdle [] =
      { texture := sampleIdle, completion := .returned (.vector2u 10 10), effects := [] } :=
  ⟨((busy_error_iff_loading sampleHost sampleBusy [.image sampleSmallImage]).2.2.2.1 rfl).2.2,
    (busy_error_iff_loading sampleHost sampleIdle []).2.2.2.2 rfl⟩

/-! ## Synchronous load -/

/-- A sample image larger than the sample textures. -/
def sampleLargeImage : SampleImage := ⟨20, 20, "big"⟩

/-- A sample texture object larger than the sample textures. -/
def sampleLargeTexture : Texture SampleTexture :=
  { _texture := ⟨20, 20, false, "big"⟩, _loading := false }

/-- C7, as stated, fails: on the idle 10 by 10 sample texture, an update at
offset (5, 5) from a 20 by 20 image, which exceeds (10 - 5, 10 - 5), completes
normally with `undefined`; no error is raised. The same holds for an update
from a 20 by 20 texture. -/
theorem Update_out_of_bounds_returns :
    sampleIdle._loading = false ∧
    sampleHost.getSize sampleIdle._texture = (10, 10) ∧
    10 - 5 < sampleLargeImage.width ∧ 10 - 5 < sampleLargeImage.height ∧
    (Texture.UpdateByImage sampleHost sampleIdle
        [.image sampleLargeImage, .number 5, .number 5]).map (fun c => c.completion) =
      some (.returned .undefined) ∧
    sampleHost.getSize sampleLargeTexture._texture = (20, 20) ∧
    (Texture.UpdateByTexture sampleHost sampleIdle
        [.texture sampleLargeTexture, .number 5, .number 5]).map (fun c => c.completion) =
      some (.returned .undefined) := by
  refine ⟨rfl, rfl, by decide, by decide, rfl, rfl, rfl⟩

/-- C7, amended: on a texture that is not busy, `updateByImage` of a wrapped
image and `updateByTexture` of a wrapped texture check no bounds: whatever the
sizes, and whatever offset the second and third arguments convert to as
unsigned 32-bit integers, they complete normally with `undefined`, request no
effect, keep the busy flag, and leave as pixel buffer the result of the
underlying `update(source)` when at most one argument is given and of
`update(source, x, y)` otherwise. -/
theorem Update_unchecked (E : Host Tex Img) (texture : Texture Tex)
    (info : List (JsValue Tex Img)) (h : texture._loading = false) :
    (∀ img : Img, arg info 0 = .image img →
      (info.length ≤ 1 →
        Texture.UpdateByImage E texture info =
          some { texture :=
                   { _texture := E.update_image texture._texture img, _loading := false }
                 completion := .returned .undefined
                 effects := [] }) ∧
      (∀ x y : Nat, ¬ info.length ≤ 1 →
        To_Uint32 E (arg info 1) = some x → To_Uint32 E (arg info 2) = some y →
        Texture.UpdateByImage E texture info =
          some { texture :=
                   { _texture := E.update_image_at texture._texture img x y
                     _loading := false }
                 completion := .returned .undefined
                 effects := [] })) ∧
    (∀ another : Texture Tex, arg info 0 = .texture another →
      (info.length ≤ 1 →
        Texture.UpdateByTexture E texture info =
          some { texture :=
                   { _texture := E.update_texture texture._texture another._texture
                     _loading := false }
                 completion := .returned .undefined
                 effects := [] }) ∧
      (∀ x y : Nat, ¬ info.length ≤ 1 →
        To_Uint32 E (arg info 1) = some x → To_Uint32 E (arg info 2) = some y →
        Texture.UpdateByTexture E texture info =
          some { texture :=
                   { _texture :=
                       E.update_texture_at texture._texture another._texture x y
                     _loading := false }
                 completion := .returned .undefined
                 effects := [] })) := by
  obtain ⟨tex, loading⟩ := texture
  simp only at h
  subst h
  constructor
  · intro img himg
    constructor
    · intro hn
      simp [Texture.UpdateByImage, himg, Unwrap_Image, hn]
    · intro x y hn hx hy
      simp [Texture.UpdateByImage, himg, Unwrap_Image, hn, hx, hy]
  · intro another hanother
    constructor
    · intro hn
      simp [Texture.UpdateByTexture, hanother, Unwrap_Texture, hn]
    · intro x y hn hx hy
      simp [Texture.UpdateByTexture, hanother, Unwrap_Texture, hn, hx, hy]

/-- On the sample host, an update of the idle texture from the small image at
offset (5, 5) completes normally and installs the pixels of the image. -/
theorem Update_unchecked_witness :
    sampleIdle._loading = false ∧
    Texture.UpdateByImage sampleHost sampleIdle
        [.image sampleSmallImage, .number 5, .number 5] =
      some { texture := { _texture := ⟨10, 10, false, "dot"⟩, _loading := false }
             completion := .returned .undefined
             effects := [] } :=
  ⟨rfl, ((Update_unchecked sampleHost sampleIdle
    [.image sampleSmallImage, .number 5, .number 5] rfl).1 sampleSmallImage rfl).2 5 5
      (by decide) rfl rfl⟩

/-! ## The decode step -/

/-- C8, as stated, fails: on the sample host, the decode step of a load of
`logo.png` changes the pixel buffer of the texture it is run on. -/
theorem LoadFromFileFunction_writes_texture :
    (LoadFromFileFunction sampleHost sampleBusy "logo.png" ⟨0, 0, 0, 0⟩).1 = true ∧
    (LoadFromFileFunction sampleHost sampleBusy "logo.png" ⟨0, 0, 0, 0⟩).2._texture =
      ⟨64, 32, false, "logo.png"⟩ ∧
    (LoadFromFileFunction sampleHost sampleBusy "logo.png" ⟨0, 0, 0, 0⟩).2._texture ≠
      sampleBusy._texture := by
  refine ⟨rfl, rfl, by decide⟩

/-- C8, amended: the decode step of an asynchronous load runs the underlying
`loadFromFile` on the pixel buffer of the texture itself: for every texture,
path and area, its outcome is the boolean result of that call, the buffer of
the texture after it is the buffer that call leaves, and the busy flag is
unchanged. -/
theorem LoadFromFileFunction_in_place (E : Host Tex Img) (target : Texture Tex)
    (filename : String) (context : IntRect) :
    LoadFromFileFunction E target filename context =
      ((E.loadFromFile target._texture filename context).1,
       { _texture := (E.loadFromFile target._texture filename context).2
         _loading := target._loading }) := rfl

/-! ## Creation -/

/-- A symbol as width makes `create` abort the process, before any creation. -/
theorem Create_symbol_aborts :
    Texture.Create sampleHost sampleIdle [.symbol 0, .number 1] =
      { texture := sampleIdle, completion := .aborted, effects := [] } := rfl

/-- C10, as stated, fails: on the sample host the underlying creation fails for
(0, 0) and succeeds for (4, 4), and `create` completes in the same way, with
`undefined`, in both cases. -/
theorem Create_failure_not_reported :
    (sampleHost.create sampleIdle._texture 0 0).1 = false ∧
    (sampleHost.create sampleIdle._texture 4 4).1 = true ∧
    (Texture.Create sampleHost sampleIdle [.number 0, .number 0]).completion =
      .returned .undefined ∧
    (Texture.Create sampleHost sampleIdle [.number 4, .number 4]).completion =
      (Texture.Create sampleHost sampleIdle [.number 0, .number 0]).completion := by
  refine ⟨rfl, rfl, rfl, rfl⟩

/-- C10, amended: `create` discards the result of the underlying creation:
for every texture and every argument list whose first two arguments convert to
unsigned 32-bit integers `w` and `h`, it completes normally with `undefined`
and requests no effect, whether the underlying creation succeeds or fails; it
leaves as pixel buffer the one the underlying `create(w, h)` leaves; the busy
flag is unchanged; and when the flag is false a subsequent `getSize` returns
the size the underlying texture reports for that buffer. -/
theorem Create_discards_result (E : Host Tex Img) (texture : Texture Tex)
    (info info1 : List (JsValue Tex Img)) (w h : Nat)
    (hw : To_Uint32 E (arg info 0) = some w) (hh : To_Uint32 E (arg info 1) = some h) :
    Texture.Create E texture info =
      { texture :=
          { _texture := (E.create texture._texture w h).2
            _loading := texture._loading }
        completion := .returned .undefined
        effects := [] } ∧
    (texture._loading = false →
      (Texture.GetSize E (Texture.Create E texture info).texture info1).completion =
        .returned (.vector2u
          (E.getSize (E.create texture._texture w h).2).1
          (E.getSize (E.create texture._texture w h).2).2)) := by
  have hc : Texture.Create E texture info =
      { texture := { _texture := (E.create texture._texture w h).2
                     _loading := texture._loading }
        completion := .returned .undefined
        effects := [] } := by
    simp [Texture.Create, hw, hh]
  refine ⟨hc, fun hl => ?_⟩
  rw [hc]
  simp [Texture.GetSize, NewRealInstance, hl]

/-- On the sample host, a size query after `create(4, 4)` on the fresh texture
returns (4, 4), and after `create(0, 0)` it returns (0, 0). -/
theorem Create_discards_result_witness :
    (Texture.new sampleHost)._loading = false ∧
    (Texture.GetSize sampleHost
      (Texture.Create sampleHost (Texture.new sampleHost) [.number 4, .number 4]).texture
      []).completion = .returned (.vector2u 4 4) ∧
    (Texture.GetSize sampleHost
      (Texture.Create sampleHost (Texture.new sampleHost) [.number 0, .number 0]).texture
      []).completion = .returned (.vector2u 0 0) :=
  ⟨rfl,
    (Create_discards_result sampleHost (Texture.new sampleHost) [.number 4, .number 4] [] 4 4
      rfl rfl).2 rfl,
    (Create_discards_result sampleHost (Texture.new sampleHost) [.number 0, .number 0] [] 0 0
      rfl rfl).2 rfl⟩

end texture
end node_sfml
